import Mathlib

/-!
Shallow embedding of the verification bot in `src/main.py` (class
`VerificationBot`): the session store `pending_verifications`, the message
ledger `user_messages`, the resolution paths (`approve_user`, `reject_user`,
`handle_poll_answer`, `handle_reaction`, `verification_timeout`), the
challenge construction in `create_verification_poll`, the FastOut tracking
(`handle_message_from_new_member`, `handle_member_left`) and the countdown
refresher (`update_timer_display`).

Platform calls (aiogram `Bot` methods) are modelled as an explicit effect
list of `ApiCall` values recording the calls the handler attempts, together
with an oracle `api : ApiCall → Bool` saying which calls succeed.  A call
whose oracle result is `false` raises `TelegramAPIError`; the Python
handlers wrap their call sequences in `try/except TelegramAPIError` blocks
that log and swallow the error, so in the model a failing call is the last
attempted call of its block.  Logging itself is not modelled.  The
`ban_notifications` map and its delayed cleanup task are not modelled: no
claim concerns them.

The asyncio scheduling discipline relevant here: a coroutine runs
atomically between `await` points, and dictionary operations such as
`dict.pop(key, None)` are single atomic steps.  Concurrent resolution
attempts are therefore modelled as a sequential fold of atomic attempts
over the store.
-/

/-- Snapshot of an `aiogram.types.User` (id, first_name, username). -/
structure UserInfo where
  id : Nat
  first_name : String
  username : Option String
  deriving DecidableEq, Repr

/-- A platform call the bot can attempt (an aiogram `Bot` method invocation).
`restrictMember c u toDefault` covers both `restrict_chat_member` uses:
`toDefault = false` applies `RESTRICTED_PERMISSIONS`, `toDefault = true`
applies `DEFAULT_PERMISSIONS`. -/
inductive ApiCall where
  | restrictMember (chat user : Nat) (toDefault : Bool)
  | sendPoll (chat : Nat)
  | deleteMessage (chat msg : Nat)
  | sendMessage (chat : Nat) (text : String)
  | banMember (chat user : Nat)
  | unbanMember (chat user : Nat)
  | answerCallback (text : String)
  | editReplyMarkup (chat msg : Nat)
  deriving DecidableEq, Repr

/-- One entry of `pending_verifications`: the dict stored per user id in
`create_verification_poll` (chat_id, poll_id, message_id, correct_option_id,
deadline, user).  The deadline is an absolute timestamp in seconds. -/
structure Session where
  chat_id : Nat
  poll_id : String
  message_id : Nat
  correct_option_id : Nat
  deadline : Nat
  user : UserInfo
  deriving DecidableEq, Repr

/-- A Python dict keyed by user id, as an association list with the dict
operations used by the source (`in`, `[k]`, `pop`, `del`, assignment). -/
def AMap (α : Type) : Type := List (Nat × α)

def AMap.lookup {α : Type} : AMap α → Nat → Option α
  | [], _ => none
  | p :: t, k => if p.1 = k then some p.2 else AMap.lookup t k

def AMap.eraseKey {α : Type} : AMap α → Nat → AMap α
  | [], _ => []
  | p :: t, k => if p.1 = k then AMap.eraseKey t k else p :: AMap.eraseKey t k

/-- Dict assignment `m[k] = v`. -/
def AMap.insert {α : Type} (m : AMap α) (k : Nat) (v : α) : AMap α :=
  (k, v) :: m.eraseKey k

theorem AMap.lookup_eraseKey {α : Type} (m : AMap α) (k : Nat) :
    (m.eraseKey k).lookup k = none := by
  induction m with
  | nil => rfl
  | cons p t ih =>
    by_cases h : p.1 = k
    · simpa [AMap.eraseKey, h] using ih
    · simpa [AMap.eraseKey, AMap.lookup, h] using ih

theorem AMap.lookup_insert_self {α : Type} (m : AMap α) (k : Nat) (v : α) :
    (m.insert k v).lookup k = some v := by
  simp [AMap.insert, AMap.lookup]

/-- The session store `self.pending_verifications : Dict[int, Dict]`. -/
abbrev Store : Type := AMap Session

/-- The message ledger `self.user_messages : Dict[int, List[int]]`.  Note the
entry type: a bare list of message ids, with no record of the chat each
message was posted in. -/
abbrev Ledger : Type := AMap (List Nat)

/-- Runs a `try`-block of platform calls in order against the success oracle
`api`, returning the list of attempted calls: a failing call raises
`TelegramAPIError`, so it is attempted and then the rest of the block is
skipped (the surrounding `except TelegramAPIError` logs and swallows it). -/
def runCalls (api : ApiCall → Bool) : List ApiCall → List ApiCall
  | [] => []
  | c :: cs => if api c then c :: runCalls api cs else [c]

theorem runCalls_cons (api : ApiCall → Bool) (c : ApiCall) (cs : List ApiCall) :
    runCalls api (c :: cs) = c :: (if api c then runCalls api cs else []) := by
  by_cases h : api c <;> simp [runCalls, h]

/-- The timing and feature-toggle fields of `Config` with their defaults
(`verification_timeout = 300`, `message_cleanup_time = 600`,
`ban_notification_time = 180`). -/
structure Config where
  verification_timeout : Nat := 300
  message_cleanup_time : Nat := 600
  ban_notification_time : Nat := 180
  htest_enabled_default : Bool := true
  fastout_enabled_default : Bool := true
  deriving DecidableEq, Repr

/-- The fixed distractor pool `poll_options_all` of
`create_verification_poll`. -/
def poll_options_all : List String :=
  [ "Я спам-бот и горжусь этим",
    "Отправляю спам 24/7",
    "Спам - это моя профессия",
    "Реклама казино - мое призвание",
    "Продаю крипто-курсы",
    "Млм-маркетолог со стажем",
    "Фейковые новости - мой хлеб",
    "Накрутчик подписчиков",
    "Бот для рассылки рекламы" ]

/-- The designated correct option `correct_answer`. -/
def correct_answer : String := "Я не спамер"

/-- The platform-call block of `approve_user` after a successful pop:
restore `DEFAULT_PERMISSIONS`, delete the challenge message, post the
success notice. -/
def approve_calls (v : Session) (user_id : Nat) : List ApiCall :=
  [ ApiCall.restrictMember v.chat_id user_id true,
    ApiCall.deleteMessage v.chat_id v.message_id,
    ApiCall.sendMessage v.chat_id
      ("✅ " ++ v.user.first_name ++ " успешно прошел верификацию!") ]

/-- `approve_user`: `pending_verifications.pop(user_id, None)`; if nothing
was found, return at once with no platform action; otherwise run the
approval call block (failures logged and swallowed). -/
def approve_user (store : Store) (user_id : Nat) (api : ApiCall → Bool) :
    Store × List ApiCall :=
  match store.lookup user_id with
  | none => (store, [])
  | some v => (store.eraseKey user_id, runCalls api (approve_calls v user_id))

/-- The platform-call block of `reject_user` after a successful pop:
ban then immediately unban (kick semantics), delete the challenge message,
post the removal notice carrying the reason. -/
def reject_calls (v : Session) (user_id : Nat) (reason : String) : List ApiCall :=
  [ ApiCall.banMember v.chat_id user_id,
    ApiCall.unbanMember v.chat_id user_id,
    ApiCall.deleteMessage v.chat_id v.message_id,
    ApiCall.sendMessage v.chat_id
      ("🚫 " ++ v.user.first_name ++ " исключен из группы. Причина: " ++ reason) ]

/-- `reject_user`: `pending_verifications.pop(user_id, None)`; if nothing was
found, return at once with no platform action; otherwise run the rejection
call block (failures logged and swallowed). -/
def reject_user (store : Store) (user_id : Nat) (reason : String)
    (api : ApiCall → Bool) : Store × List ApiCall :=
  match store.lookup user_id with
  | none => (store, [])
  | some v => (store.eraseKey user_id, runCalls api (reject_calls v user_id reason))

/-- `create_verification_poll`: the wrong answers `random.sample`d from the
pool and the shuffled option list are passed in as the outcome of the
randomness; `sendPollRes` is the result of `bot.send_poll` — `none` means
the call raised `TelegramAPIError` (caught and logged inside this function),
`some (pid, mid)` the poll id and message id of the published message.  The
session entry is inserted only on the success branch, with
`correct_option_id = poll_options.index(correct_answer)` and
`deadline = now + verification_timeout`. -/
def create_verification_poll (store : Store) (chat_id : Nat) (u : UserInfo)
    (shuffledOptions : List String) (sendPollRes : Option (String × Nat))
    (now window : Nat) : Store × List ApiCall :=
  let correct_option_id := shuffledOptions.indexOf correct_answer
  match sendPollRes with
  | none => (store, [ApiCall.sendPoll chat_id])
  | some (pid, mid) =>
      (store.insert u.id
        { chat_id := chat_id, poll_id := pid, message_id := mid,
          correct_option_id := correct_option_id, deadline := now + window,
          user := u },
       [ApiCall.sendPoll chat_id])

/-- `handle_new_member`: ignore if HTest is disabled or the joiner is the bot
itself; otherwise try to apply `RESTRICTED_PERMISSIONS` and, if that call
succeeded, create the verification poll.  A `TelegramAPIError` from
`restrict_chat_member` is caught by this handler's `except` (logged), so
the poll is never attempted in that case. -/
def handle_new_member (htest : Bool) (botId : Nat) (u : UserInfo)
    (chat_id : Nat) (restrictOk : Bool) (shuffledOptions : List String)
    (sendPollRes : Option (String × Nat)) (store : Store) (now window : Nat) :
    Store × List ApiCall :=
  if ¬htest ∨ u.id = botId then (store, [])
  else if ¬restrictOk then (store, [ApiCall.restrictMember chat_id u.id false])
  else
    let r := create_verification_poll store chat_id u shuffledOptions sendPollRes now window
    (r.1, ApiCall.restrictMember chat_id u.id false :: r.2)

/-- An `aiogram.types.PollAnswer`: answering user, poll id, selected option
ids (empty when a vote is retracted). -/
structure PollAnswerEv where
  user_id : Nat
  poll_id : String
  option_ids : List Nat
  deriving DecidableEq, Repr

/-- `handle_poll_answer`: ignore if the user has no pending verification or
the poll id does not match; otherwise read `option_ids[0]` — an
`IndexError` (modelled as `Except.error`) if the list is empty, since the
handler indexes it unconditionally — and approve on a match with
`correct_option_id`, reject with reason "Неправильный ответ на опрос"
otherwise. -/
def handle_poll_answer (store : Store) (pa : PollAnswerEv)
    (api : ApiCall → Bool) : Except String (Store × List ApiCall) :=
  match store.lookup pa.user_id with
  | none => Except.ok (store, [])
  | some v =>
    if pa.poll_id ≠ v.poll_id then Except.ok (store, [])
    else
      match pa.option_ids with
      | [] => Except.error "IndexError"
      | selected_option_id :: _ =>
        if selected_option_id = v.correct_option_id then
          Except.ok (approve_user store pa.user_id api)
        else
          Except.ok (reject_user store pa.user_id "Неправильный ответ на опрос" api)

/-- `handle_reaction`, the administrator button press on the challenge
message: a non-administrator presser only gets a denial toast; if the target
user has no pending verification, answer "already resolved" and strip the
keyboard from the pressed message (`cbChat`, `cbMsg`); otherwise dispatch
`approve_user` / `reject_user` by the packed action string and acknowledge. -/
def handle_reaction (store : Store) (presserIsAdmin : Bool)
    (cbChat cbMsg : Nat) (action : String) (target : Nat)
    (api : ApiCall → Bool) : Store × List ApiCall :=
  if ¬presserIsAdmin then
    (store, [ApiCall.answerCallback "Только администраторы могут использовать эти кнопки"])
  else
    match store.lookup target with
    | none =>
      (store, [ApiCall.answerCallback "Этот пользователь уже прошел верификацию или был исключен.",
               ApiCall.editReplyMarkup cbChat cbMsg])
    | some _ =>
      if action = "approve" then
        let r := approve_user store target api
        (r.1, r.2 ++ [ApiCall.answerCallback "Пользователь одобрен"])
      else if action = "reject" then
        let r := reject_user store target "Отклонен администратором" api
        (r.1, r.2 ++ [ApiCall.answerCallback "Пользователь отклонен"])
      else (store, [])

/-- The body of `verification_timeout` after `asyncio.sleep` returns: reject
with reason "Превышено время верификации" if the user still has a pending
verification, otherwise do nothing. -/
def verification_timeout_fire (store : Store) (user_id : Nat)
    (api : ApiCall → Bool) : Store × List ApiCall :=
  if (store.lookup user_id).isSome then
    reject_user store user_id "Превышено время верификации" api
  else (store, [])

/-- The ledger update in `handle_message_from_new_member`: create the entry
as an empty list when absent, then append the message id. -/
def Ledger.appendMsg (l : Ledger) (user_id msgId : Nat) : Ledger :=
  match l.lookup user_id with
  | none => l.insert user_id [msgId]
  | some ms => l.insert user_id (ms ++ [msgId])

/-- `handle_message_from_new_member` for a trackable content message with a
sender: if HTest is enabled and the sender has a pending verification,
delete the message (in the message's own chat) and return without touching
the ledger; otherwise, if FastOut is disabled, do nothing; otherwise append
the message id to the sender's ledger entry.  The message's chat id is not
recorded in the ledger. -/
def handle_message_from_new_member (htest fastout : Bool) (store : Store)
    (ledger : Ledger) (user_id chat_id msg_id : Nat) :
    Ledger × List ApiCall :=
  if htest ∧ (store.lookup user_id).isSome then
    (ledger, [ApiCall.deleteMessage chat_id msg_id])
  else if ¬fastout then (ledger, [])
  else (ledger.appendMsg user_id msg_id, [])

/-- `handle_member_left`: if FastOut is disabled, do nothing; otherwise, if
the departing user has a ledger entry, attempt `delete_message` in the
departure event's chat for every tracked message id — each deletion has its
own `try/except TelegramAPIError` that logs and continues, so every id is
attempted no matter which calls fail (the oracle `api` does not influence
the attempted list) — then `del` the ledger entry. -/
def handle_member_left (fastout : Bool) (ledger : Ledger)
    (user_id chat_id : Nat) (api : ApiCall → Bool) : Ledger × List ApiCall :=
  if ¬fastout then (ledger, [])
  else
    match ledger.lookup user_id with
    | none => (ledger, [])
    | some msgs =>
      (ledger.eraseKey user_id, msgs.map (fun m => ApiCall.deleteMessage chat_id m))

/-- Outcome of the `edit_message_reply_markup` call in one iteration of
`update_timer_display`: success, a `TelegramBadRequest` whose message
contains "message is not modified", a `TelegramBadRequest` with any other
message, or a non-BadRequest `TelegramAPIError`. -/
inductive EditResult where
  | ok
  | badRequestNotModified
  | badRequestOther
  | apiError
  deriving DecidableEq, Repr

/-- How one iteration of the `update_timer_display` loop ends. -/
inductive LoopOutcome where
  /-- The iteration finished and the loop runs again (after the sleep). -/
  | continueLoop
  /-- The while-condition or the inner `get` observed no session: `break`. -/
  | stopNoSession
  /-- `remaining_seconds <= 0`: `break`. -/
  | stopTimeUp
  /-- A non-BadRequest `TelegramAPIError`: logged warning, `break`. -/
  | stopLoggedApiError
  /-- A `TelegramBadRequest` other than "message is not modified": the
  handler re-raises it, so the exception propagates out of the loop and out
  of `update_timer_display` without being logged by the handler. -/
  | raisedBadRequest
  deriving DecidableEq, Repr

/-- One iteration of the `update_timer_display` loop, given the store
snapshot, the current time `now`, and the result of the edit call (used
only when the loop actually reaches the edit).  `remaining_seconds` is the
signed difference `deadline - now`. -/
def timerStep (store : Store) (user_id : Nat) (now : Nat) (er : EditResult) :
    LoopOutcome :=
  match store.lookup user_id with
  | none => LoopOutcome.stopNoSession
  | some v =>
    if (v.deadline : Int) - (now : Int) ≤ 0 then LoopOutcome.stopTimeUp
    else
      match er with
      | EditResult.ok => LoopOutcome.continueLoop
      | EditResult.badRequestNotModified => LoopOutcome.continueLoop
      | EditResult.badRequestOther => LoopOutcome.raisedBadRequest
      | EditResult.apiError => LoopOutcome.stopLoggedApiError

/-- The `update_timer_display` loop run against a trace of per-iteration
environments (store snapshot, time, edit outcome); the trace length bounds
the number of iterations observed, and an exhausted trace leaves the loop
still running. -/
def update_timer_display (user_id : Nat) :
    List (Store × Nat × EditResult) → LoopOutcome
  | [] => LoopOutcome.continueLoop
  | (store, now, er) :: rest =>
    match timerStep store user_id now er with
    | LoopOutcome.continueLoop => update_timer_display user_id rest
    | o => o

/-- The timeout task spawned at session creation: `verification_timeout`
begins with `await asyncio.sleep(window)`, which resumes no earlier than
`window` seconds after the task started, so the body cannot run before
`startTime + window`. -/
structure TimeoutTimer where
  user_id : Nat
  fireAt : Nat
  deriving DecidableEq, Repr

/-- Scheduling of `verification_timeout(user_id)` by
`create_verification_poll` at time `startTime` with the configured window. -/
def scheduleVerificationTimeout (startTime window user_id : Nat) : TimeoutTimer :=
  { user_id := user_id, fireAt := startTime + window }

/-- The sleep in `verification_timeout` has returned by time `now`: possible
only at or after `fireAt`. -/
def TimeoutTimer.canFire (tm : TimeoutTimer) (now : Nat) : Prop :=
  tm.fireAt ≤ now

instance (tm : TimeoutTimer) (now : Nat) : Decidable (tm.canFire now) :=
  inferInstanceAs (Decidable (tm.fireAt ≤ now))

/-- One resolution attempt aimed at a given participant: a poll answer
carrying the event's poll id and first selected option, an administrator
button press (presser's admin status, pressed message coordinates, packed
action string), or the firing of the verification timeout. -/
inductive Attempt where
  | answer (pollId : String) (sel : Nat)
  | adminPress (presserIsAdmin : Bool) (cbChat cbMsg : Nat) (action : String)
  | timeoutFire
  deriving DecidableEq, Repr

/-- Runs one attempt against the store as the corresponding handler does.
The poll-answer case feeds `handle_poll_answer` a single-option event (a
nonempty selection never raises, so the `getD` default is never used). -/
def runAttempt (api : ApiCall → Bool) (user_id : Nat) (store : Store) :
    Attempt → Store × List ApiCall
  | Attempt.answer pid sel =>
    ((handle_poll_answer store ⟨user_id, pid, [sel]⟩ api).toOption).getD (store, [])
  | Attempt.adminPress isAdm cbChat cbMsg action =>
    handle_reaction store isAdm cbChat cbMsg action user_id api
  | Attempt.timeoutFire => verification_timeout_fire store user_id api

/-- Sequential execution of a list of resolution attempts (asyncio runs each
handler's check-and-pop atomically between awaits), collecting each
attempt's attempted platform calls. -/
def runAttempts (api : ApiCall → Bool) (user_id : Nat) (store : Store) :
    List Attempt → Store × List (List ApiCall)
  | [] => (store, [])
  | a :: as =>
    let r := runAttempt api user_id store a
    let rest := runAttempts api user_id r.1 as
    (rest.1, r.2 :: rest.2)

/-- An attempt that is eligible to resolve the session `v`: a poll answer
whose poll id matches the stored one, an administrator press with a real
admin and a real action, or the timeout. -/
def Attempt.eligible (v : Session) : Attempt → Prop
  | Attempt.answer pid _ => pid = v.poll_id
  | Attempt.adminPress isAdm _ _ action =>
      isAdm = true ∧ (action = "approve" ∨ action = "reject")
  | Attempt.timeoutFire => True

/-- Classifies a platform call as an admit/reject side effect (the calls
issued by `approve_user`/`reject_user`) as opposed to the acknowledgment
toasts and keyboard stripping of the admin-press path or the challenge
publication. -/
def ApiCall.isResolution : ApiCall → Bool
  | ApiCall.answerCallback _ => false
  | ApiCall.editReplyMarkup _ _ => false
  | ApiCall.sendPoll _ => false
  | _ => true

theorem approve_user_present (store : Store) (user_id : Nat)
    (api : ApiCall → Bool) (v : Session) (h : store.lookup user_id = some v) :
    approve_user store user_id api =
      (store.eraseKey user_id, runCalls api (approve_calls v user_id)) := by
  simp [approve_user, h]

theorem reject_user_present (store : Store) (user_id : Nat) (reason : String)
    (api : ApiCall → Bool) (v : Session) (h : store.lookup user_id = some v) :
    reject_user store user_id reason api =
      (store.eraseKey user_id, runCalls api (reject_calls v user_id reason)) := by
  simp [reject_user, h]

theorem runCalls_any_of_head (api : ApiCall → Bool) (p : ApiCall → Bool)
    (c : ApiCall) (cs : List ApiCall) (h : p c = true) :
    (runCalls api (c :: cs)).any p = true := by
  rw [runCalls_cons]
  simp [h]

theorem runCalls_approve_any (api : ApiCall → Bool) (v : Session)
    (user_id : Nat) :
    (runCalls api (approve_calls v user_id)).any ApiCall.isResolution = true := by
  simp only [approve_calls]
  exact runCalls_any_of_head api _ _ _ rfl

theorem runCalls_reject_any (api : ApiCall → Bool) (v : Session)
    (user_id : Nat) (reason : String) :
    (runCalls api (reject_calls v user_id reason)).any ApiCall.isResolution = true := by
  simp only [reject_calls]
  exact runCalls_any_of_head api _ _ _ rfl

/-- A resolution attempt finding the session pops it and attempts at least
one admit/reject platform call. -/
theorem runAttempt_resolves (api : ApiCall → Bool) (user_id : Nat)
    (store : Store) (v : Session) (a : Attempt)
    (hl : store.lookup user_id = some v) (he : a.eligible v) :
    (runAttempt api user_id store a).1.lookup user_id = none ∧
    (runAttempt api user_id store a).2.any ApiCall.isResolution = true := by
  cases a with
  | answer pid sel =>
    have hp : pid = v.poll_id := he
    by_cases hsel : sel = v.correct_option_id
    · simp only [runAttempt, handle_poll_answer, hl, hp, ne_eq, not_true_eq_false,
        if_false, hsel, if_true, Except.toOption, Option.getD_some,
        approve_user_present store user_id api v hl]
      exact ⟨AMap.lookup_eraseKey store user_id,
        runCalls_approve_any api v user_id⟩
    · simp only [runAttempt, handle_poll_answer, hl, hp, ne_eq, not_true_eq_false,
        if_false, hsel, Except.toOption, Option.getD_some,
        reject_user_present store user_id _ api v hl]
      exact ⟨AMap.lookup_eraseKey store user_id,
        runCalls_reject_any api v user_id _⟩
  | adminPress isAdm cbChat cbMsg action =>
    obtain ⟨hadm, hact⟩ := he
    subst hadm
    rcases hact with hact | hact <;> subst hact
    · simp only [runAttempt, handle_reaction, not_true_eq_false, if_false, hl,
        if_true, approve_user_present store user_id api v hl]
      refine ⟨AMap.lookup_eraseKey store user_id, ?_⟩
      rw [List.any_append, runCalls_approve_any api v user_id]
      rfl
    · have hne1 : ("reject" = "approve") = False := by simp
      have hne2 : ("reject" = "reject") = True := by simp
      simp only [runAttempt, handle_reaction, not_true_eq_false, if_false, hl,
        hne1, hne2, if_true, reject_user_present store user_id _ api v hl]
      refine ⟨AMap.lookup_eraseKey store user_id, ?_⟩
      rw [List.any_append, runCalls_reject_any api v user_id _]
      rfl
  | timeoutFire =>
    simp only [runAttempt, verification_timeout_fire, hl, Option.isSome_some,
      if_true, reject_user_present store user_id _ api v hl]
    exact ⟨AMap.lookup_eraseKey store user_id,
      runCalls_reject_any api v user_id _⟩

/-- Any attempt that observes an absent session leaves the store unchanged
and attempts no admit/reject platform call (the admin-press path may still
answer the callback and strip the keyboard). -/
theorem runAttempt_noop (api : ApiCall → Bool) (user_id : Nat)
    (store : Store) (a : Attempt) (hl : store.lookup user_id = none) :
    (runAttempt api user_id store a).1 = store ∧
    (runAttempt api user_id store a).2.any ApiCall.isResolution = false := by
  cases a with
  | answer pid sel =>
    simp [runAttempt, handle_poll_answer, hl, Except.toOption]
  | adminPress isAdm cbChat cbMsg action =>
    by_cases h : isAdm <;>
      simp [runAttempt, handle_reaction, hl, h, ApiCall.isResolution]
  | timeoutFire =>
    simp [runAttempt, verification_timeout_fire, hl]

theorem runAttempts_noop (api : ApiCall → Bool) (user_id : Nat)
    (as : List Attempt) (store : Store) (hl : store.lookup user_id = none) :
    (runAttempts api user_id store as).1 = store ∧
    ((runAttempts api user_id store as).2.countP
      (fun effs => effs.any ApiCall.isResolution)) = 0 := by
  induction as generalizing store with
  | nil => exact ⟨rfl, rfl⟩
  | cons a as ih =>
    obtain ⟨h1, h2⟩ := runAttempt_noop api user_id store a hl
    have hrest := ih (runAttempt api user_id store a).1 (by rw [h1]; exact hl)
    constructor
    · show (runAttempts api user_id (runAttempt api user_id store a).1 as).1 = store
      rw [hrest.1, h1]
    · show ((runAttempt api user_id store a).2 ::
          (runAttempts api user_id (runAttempt api user_id store a).1 as).2).countP
          (fun effs => effs.any ApiCall.isResolution) = 0
      rw [List.countP_cons, hrest.2, h2]
      simp

/-- C1, counterexample to the claim as stated: with one pending session,
run the timeout first and an administrator "reject" press second.  The
press observes the session already gone, yet it still performs platform
actions — it answers the callback and strips the keyboard
(`callback.answer(...)` and `edit_reply_markup(reply_markup=None)` in
`handle_reaction`) — so it is false that every non-winning resolution
attempt performs no platform action. -/
theorem c1_counterexample :
    ((runAttempts (fun _ => true) 1
      [(1, { chat_id := 5, poll_id := "p", message_id := 10,
             correct_option_id := 2, deadline := 300,
             user := { id := 1, first_name := "A", username := none } })]
      [Attempt.timeoutFire, Attempt.adminPress true 5 10 "reject"]).2.getD 1 [])
    ≠ [] := by
  decide

/-- C1 (amended): every resolution path first performs the atomic
`pop(user_id, None)` and proceeds only if an entry was found; hence, of any
number of concurrent or repeated resolution attempts for the same
participant (poll answers matching the stored poll id, administrator
presses, timeout firings), exactly one attempts the admit/reject platform
side effects, and the session is gone afterwards.  The other attempts
perform no admit/reject side effect — though a losing administrator press
still answers the callback and strips the keyboard, and so is not free of
platform actions altogether. -/
theorem c1_amended (api : ApiCall → Bool) (user_id : Nat) (store : Store)
    (v : Session) (attempts : List Attempt)
    (hpres : store.lookup user_id = some v)
    (hne : attempts ≠ [])
    (helig : ∀ a ∈ attempts, a.eligible v) :
    ((runAttempts api user_id store attempts).2.countP
      (fun effs => effs.any ApiCall.isResolution)) = 1 ∧
    (runAttempts api user_id store attempts).1.lookup user_id = none := by
  cases attempts with
  | nil => exact absurd rfl hne
  | cons a as =>
    obtain ⟨hwin1, hwin2⟩ :=
      runAttempt_resolves api user_id store v a hpres (helig a (List.mem_cons_self a as))
    obtain ⟨hrest1, hrest2⟩ :=
      runAttempts_noop api user_id as (runAttempt api user_id store a).1 hwin1
    constructor
    · show ((runAttempt api user_id store a).2 ::
          (runAttempts api user_id (runAttempt api user_id store a).1 as).2).countP
          (fun effs => effs.any ApiCall.isResolution) = 1
      rw [List.countP_cons, hrest2, hwin2]
      simp
    · show (runAttempts api user_id
          (runAttempt api user_id store a).1 as).1.lookup user_id = none
      rw [hrest1]
      exact hwin1

/-- Witness for `c1_amended`: a session for user 1, with a timeout firing, a
matching poll answer and an administrator press racing — exactly one
attempt emits admit/reject side effects and the store ends empty. -/
theorem c1_witness :
    ((runAttempts (fun _ => true) 1
      [(1, { chat_id := 5, poll_id := "p", message_id := 10,
             correct_option_id := 2, deadline := 300,
             user := { id := 1, first_name := "B", username := none } })]
      [Attempt.answer "p" 2, Attempt.timeoutFire,
       Attempt.adminPress true 5 10 "approve"]).2.countP
      (fun effs => effs.any ApiCall.isResolution)) = 1 ∧
    (runAttempts (fun _ => true) 1
      [(1, { chat_id := 5, poll_id := "p", message_id := 10,
             correct_option_id := 2, deadline := 300,
             user := { id := 1, first_name := "B", username := none } })]
      [Attempt.answer "p" 2, Attempt.timeoutFire,
       Attempt.adminPress true 5 10 "approve"]).1.lookup 1 = none :=
  c1_amended (fun _ => true) 1
    [(1, { chat_id := 5, poll_id := "p", message_id := 10,
           correct_option_id := 2, deadline := 300,
           user := { id := 1, first_name := "B", username := none } })]
    { chat_id := 5, poll_id := "p", message_id := 10,
      correct_option_id := 2, deadline := 300,
      user := { id := 1, first_name := "B", username := none } }
    [Attempt.answer "p" 2, Attempt.timeoutFire,
     Attempt.adminPress true 5 10 "approve"]
    (by decide) (by decide)
    (by
      intro a ha
      simp only [List.mem_cons] at ha
      rcases ha with h | h | h | h
      · subst h; exact rfl
      · subst h; exact trivial
      · subst h; exact ⟨rfl, Or.inl rfl⟩
      · exact absurd h (List.not_mem_nil a))

/-- C2: on a new-member event, if applying the restricted permissions fails
or publishing the challenge poll fails, no session entry is inserted — the
store is left exactly as it was; conversely any change to the store
requires both the restriction call and the poll publication to have
succeeded. -/
theorem c2_no_partial_state (htest : Bool) (botId : Nat) (u : UserInfo)
    (chat_id : Nat) (restrictOk : Bool) (shuffledOptions : List String)
    (sendPollRes : Option (String × Nat)) (store : Store) (now window : Nat) :
    ((restrictOk = false ∨ sendPollRes = none) →
      (handle_new_member htest botId u chat_id restrictOk shuffledOptions
        sendPollRes store now window).1 = store) ∧
    ((handle_new_member htest botId u chat_id restrictOk shuffledOptions
        sendPollRes store now window).1 ≠ store →
      restrictOk = true ∧ sendPollRes.isSome = true) := by
  have key : ∀ (ro : Bool) (sp : Option (String × Nat)),
      (ro = false ∨ sp = none) →
      (handle_new_member htest botId u chat_id ro shuffledOptions sp store
        now window).1 = store := by
    intro ro sp hfail
    by_cases hg : htest = false ∨ u.id = botId
    · simp [handle_new_member, hg]
    · cases ro with
      | false => simp [handle_new_member, hg]
      | true =>
        have hs : sp = none := by
          rcases hfail with h | h
          · cases h
          · exact h
        subst hs
        simp [handle_new_member, hg, create_verification_poll]
  refine ⟨key restrictOk sendPollRes, ?_⟩
  intro hch
  cases hrv : restrictOk with
  | false =>
    rw [hrv] at hch
    exact absurd (key false sendPollRes (Or.inl rfl)) hch
  | true =>
    cases hs : sendPollRes with
    | none =>
      rw [hs] at hch
      exact absurd (key restrictOk none (Or.inr rfl)) hch
    | some p => exact ⟨rfl, rfl⟩

/-- Witness for `c2_no_partial_state`: a failed `send_poll` for user 7 joining
chat 5 leaves the empty store empty. -/
theorem c2_witness :
    (handle_new_member true 99 { id := 7, first_name := "C", username := none }
      5 true [correct_answer] none [] 0 300).1 = [] :=
  (c2_no_partial_state true 99 { id := 7, first_name := "C", username := none }
    5 true [correct_answer] none [] 0 300).1 (Or.inr rfl)

theorem correct_answer_not_in_pool : correct_answer ∉ poll_options_all := by
  decide

/-- C3: the generated challenge has exactly three options — one instance of
the designated correct option and two distinct distractors from the fixed
pool — and the `correct_option_id` recorded in the inserted session points
at the position of the correct option in the published option list.  The
hypotheses describe what `random.sample(poll_options_all, 2)` guarantees
about `wrong_answers` (two distinct pool elements) and what
`random.shuffle` guarantees about the published list (a permutation of
`wrong_answers + [correct_answer]`). -/
theorem c3_challenge_shape (wrong shuffled : List String) (store : Store)
    (chat_id : Nat) (u : UserInfo) (pid : String) (mid : Nat)
    (now window : Nat) (v : Session)
    (hlen : wrong.length = 2) (hnd : wrong.Nodup)
    (hsub : ∀ x ∈ wrong, x ∈ poll_options_all)
    (hperm : List.Perm (wrong ++ [correct_answer]) shuffled)
    (hins : (create_verification_poll store chat_id u shuffled
      (some (pid, mid)) now window).1.lookup u.id = some v) :
    shuffled.length = 3 ∧
    shuffled.count correct_answer = 1 ∧
    shuffled.Nodup ∧
    (∀ x ∈ shuffled, x ≠ correct_answer → x ∈ poll_options_all) ∧
    v.correct_option_id < shuffled.length ∧
    shuffled.getD v.correct_option_id "" = correct_answer := by
  have hnw : correct_answer ∉ wrong := fun h =>
    correct_answer_not_in_pool (hsub _ h)
  have hmem : correct_answer ∈ shuffled :=
    hperm.mem_iff.mp (by simp)
  have hv : v =
      { chat_id := chat_id, poll_id := pid, message_id := mid,
        correct_option_id := shuffled.indexOf correct_answer,
        deadline := now + window, user := u } := by
    have := hins
    rw [create_verification_poll] at this
    simp only [AMap.lookup_insert_self, Option.some_inj] at this
    exact this.symm
  have hidx : shuffled.indexOf correct_answer < shuffled.length :=
    List.indexOf_lt_length.mpr hmem
  refine ⟨?_, ?_, ?_, ?_, ?_, ?_⟩
  · rw [← hperm.length_eq, List.length_append, hlen]
    rfl
  · rw [← hperm.count_eq, List.count_append]
    rw [List.count_eq_zero.mpr hnw]
    simp [correct_answer]
  · refine hperm.nodup ?_
    rw [List.nodup_append]
    exact ⟨hnd, List.nodup_singleton _, by
      intro x hx hx'
      rw [List.mem_singleton] at hx'
      subst hx'
      exact hnw hx⟩
  · intro x hx hne
    rcases List.mem_append.mp (hperm.mem_iff.mpr hx) with h | h
    · exact hsub _ h
    · rw [List.mem_singleton] at h
      exact absurd h hne
  · rw [hv]
    exact hidx
  · rw [hv]
    show shuffled.getD (shuffled.indexOf correct_answer) "" = correct_answer
    rw [List.getD_eq_get _ _ hidx]
    exact List.indexOf_get hidx

/-- Witness for `c3_challenge_shape`: a concrete sample of two distractors
and a concrete shuffle with the correct option in the middle. -/
theorem c3_witness :
    (["Отправляю спам 24/7", correct_answer, "Продаю крипто-курсы"].length = 3 ∧
    ["Отправляю спам 24/7", correct_answer, "Продаю крипто-курсы"].count correct_answer = 1 ∧
    ["Отправляю спам 24/7", correct_answer, "Продаю крипто-курсы"].Nodup ∧
    (∀ x ∈ ["Отправляю спам 24/7", correct_answer, "Продаю крипто-курсы"],
      x ≠ correct_answer → x ∈ poll_options_all) ∧
    ({ chat_id := 5, poll_id := "p", message_id := 10, correct_option_id := 1,
       deadline := 300,
       user := { id := 7, first_name := "C", username := none } } : Session).correct_option_id <
      ["Отправляю спам 24/7", correct_answer, "Продаю крипто-курсы"].length ∧
    ["Отправляю спам 24/7", correct_answer, "Продаю крипто-курсы"].getD
      ({ chat_id := 5, poll_id := "p", message_id := 10, correct_option_id := 1,
         deadline := 300,
         user := { id := 7, first_name := "C", username := none } } : Session).correct_option_id ""
      = correct_answer) :=
  c3_challenge_shape ["Отправляю спам 24/7", "Продаю крипто-курсы"]
    ["Отправляю спам 24/7", correct_answer, "Продаю крипто-курсы"]
    [] 5 { id := 7, first_name := "C", username := none } "p" 10 0 300
    { chat_id := 5, poll_id := "p", message_id := 10, correct_option_id := 1,
      deadline := 300, user := { id := 7, first_name := "C", username := none } }
    (by decide) (by decide) (by decide)
    (by decide)
    (by decide)

/-- C4: an answer event from a user with no pending verification, or whose
poll id differs from the stored one, changes nothing and performs no
platform call; otherwise (with a nonempty selection, as any real vote has)
the user is approved exactly when the first selected option equals the
stored `correct_option_id`, and rejected with reason
"Неправильный ответ на опрос" otherwise. -/
theorem c4_answer_dispatch (store : Store) (pa : PollAnswerEv)
    (api : ApiCall → Bool) :
    (store.lookup pa.user_id = none →
      handle_poll_answer store pa api = Except.ok (store, [])) ∧
    (∀ v, store.lookup pa.user_id = some v → pa.poll_id ≠ v.poll_id →
      handle_poll_answer store pa api = Except.ok (store, [])) ∧
    (∀ v sel rest, store.lookup pa.user_id = some v →
      pa.poll_id = v.poll_id → pa.option_ids = sel :: rest →
      handle_poll_answer store pa api = Except.ok
        (if sel = v.correct_option_id then
          approve_user store pa.user_id api
        else
          reject_user store pa.user_id "Неправильный ответ на опрос" api)) := by
  refine ⟨?_, ?_, ?_⟩
  · intro h
    simp [handle_poll_answer, h]
  · intro v h hne
    simp [handle_poll_answer, h, hne]
  · intro v sel rest h heq hids
    by_cases hsel : sel = v.correct_option_id <;>
      simp [handle_poll_answer, h, heq, hids, hsel]

/-- Witness for `c4_answer_dispatch`: a matching answer event picking the
correct option 2 resolves to the approval path. -/
theorem c4_witness :
    handle_poll_answer
      [(1, { chat_id := 5, poll_id := "p", message_id := 10,
             correct_option_id := 2, deadline := 300,
             user := { id := 1, first_name := "D", username := none } })]
      { user_id := 1, poll_id := "p", option_ids := [2] } (fun _ => true) =
      Except.ok (approve_user
        [(1, { chat_id := 5, poll_id := "p", message_id := 10,
               correct_option_id := 2, deadline := 300,
               user := { id := 1, first_name := "D", username := none } })]
        1 (fun _ => true)) := by
  rw [(c4_answer_dispatch
      [(1, { chat_id := 5, poll_id := "p", message_id := 10,
             correct_option_id := 2, deadline := 300,
             user := { id := 1, first_name := "D", username := none } })]
      { user_id := 1, poll_id := "p", option_ids := [2] }
      (fun _ => true)).2.2
    { chat_id := 5, poll_id := "p", message_id := 10,
      correct_option_id := 2, deadline := 300,
      user := { id := 1, first_name := "D", username := none } }
    2 [] rfl rfl rfl]
  rfl

/-- C9: an answer event whose `option_ids` list is empty (a retracted vote)
from a participant whose pending session matches the event's poll id makes
`handle_poll_answer` evaluate `poll_answer.option_ids[0]` out of bounds:
the handler raises (`Except.error`) instead of ignoring the event. -/
theorem c9_empty_options_error (store : Store) (pa : PollAnswerEv)
    (api : ApiCall → Bool) (v : Session)
    (h : store.lookup pa.user_id = some v)
    (heq : pa.poll_id = v.poll_id)
    (hids : pa.option_ids = []) :
    handle_poll_answer store pa api = Except.error "IndexError" := by
  simp [handle_poll_answer, h, heq, hids]

/-- Witness for `c9_empty_options_error`: a concrete retracted vote against
a matching pending session. -/
theorem c9_witness :
    handle_poll_answer
      [(3, { chat_id := 5, poll_id := "q", message_id := 11,
             correct_option_id := 0, deadline := 300,
             user := { id := 3, first_name := "E", username := none } })]
      { user_id := 3, poll_id := "q", option_ids := [] } (fun _ => true) =
      Except.error "IndexError" :=
  c9_empty_options_error
    [(3, { chat_id := 5, poll_id := "q", message_id := 11,
           correct_option_id := 0, deadline := 300,
           user := { id := 3, first_name := "E", username := none } })]
    { user_id := 3, poll_id := "q", option_ids := [] } (fun _ => true)
    { chat_id := 5, poll_id := "q", message_id := 11,
      correct_option_id := 0, deadline := 300,
      user := { id := 3, first_name := "E", username := none } }
    rfl rfl rfl

/-- C5, counterexample to the claim as stated: HTest has been toggled off
(`/htest off`) while user 1 still has a pending session.  User 1's message
42 is then appended to the ledger and not deleted — the deletion branch of
`handle_message_from_new_member` is guarded by `self.htest_enabled`, so the
suppression does not hold unconditionally for every participant with an
active session. -/
theorem c5_counterexample :
    (handle_message_from_new_member false true
      [(1, { chat_id := 5, poll_id := "p", message_id := 10,
             correct_option_id := 2, deadline := 300,
             user := { id := 1, first_name := "F", username := none } })]
      [] 1 5 42).1.lookup 1 = some [42] ∧
    (handle_message_from_new_member false true
      [(1, { chat_id := 5, poll_id := "p", message_id := 10,
             correct_option_id := 2, deadline := 300,
             user := { id := 1, first_name := "F", username := none } })]
      [] 1 5 42).2 = [] := by
  decide

/-- C5 (amended): provided HTest is enabled, a trackable message from a
participant with an active verification session is deleted and never
appended to that sender's ledger entry, regardless of whether FastOut is
enabled. -/
theorem c5_amended (fastout : Bool) (store : Store) (ledger : Ledger)
    (user_id chat_id msg_id : Nat)
    (hgate : (store.lookup user_id).isSome = true) :
    handle_message_from_new_member true fastout store ledger user_id chat_id
      msg_id = (ledger, [ApiCall.deleteMessage chat_id msg_id]) := by
  simp [handle_message_from_new_member, hgate]

/-- Witness for `c5_amended`: a gated user's message is deleted and the
ledger untouched even with FastOut enabled. -/
theorem c5_witness :
    handle_message_from_new_member true true
      [(1, { chat_id := 5, poll_id := "p", message_id := 10,
             correct_option_id := 2, deadline := 300,
             user := { id := 1, first_name := "F", username := none } })]
      [] 1 5 42 = ([], [ApiCall.deleteMessage 5 42]) :=
  c5_amended true
    [(1, { chat_id := 5, poll_id := "p", message_id := 10,
           correct_option_id := 2, deadline := 300,
           user := { id := 1, first_name := "F", username := none } })]
    [] 1 5 42 rfl

/-- C6: on a member-left event with FastOut enabled and a ledger entry
present, a deletion is attempted for every tracked message id — the
attempted-call list is the full map over the entry and does not depend on
which calls fail, since each deletion has its own `try/except` — and the
ledger entry is gone afterwards. -/
theorem c6_ledger_purge (ledger : Ledger) (user_id chat_id : Nat)
    (msgs : List Nat) (api api' : ApiCall → Bool)
    (h : ledger.lookup user_id = some msgs) :
    handle_member_left true ledger user_id chat_id api =
      (ledger.eraseKey user_id,
       msgs.map (fun m => ApiCall.deleteMessage chat_id m)) ∧
    (handle_member_left true ledger user_id chat_id api).1.lookup user_id = none ∧
    (∀ m ∈ msgs, ApiCall.deleteMessage chat_id m ∈
      (handle_member_left true ledger user_id chat_id api).2) ∧
    handle_member_left true ledger user_id chat_id api =
      handle_member_left true ledger user_id chat_id api' := by
  have he : handle_member_left true ledger user_id chat_id api =
      (ledger.eraseKey user_id,
       msgs.map (fun m => ApiCall.deleteMessage chat_id m)) := by
    simp [handle_member_left, h]
  refine ⟨he, ?_, ?_, ?_⟩
  · rw [he]
    exact AMap.lookup_eraseKey ledger user_id
  · intro m hm
    rw [he]
    exact List.mem_map_of_mem _ hm
  · rw [he]
    simp [handle_member_left, h]

/-- Witness for `c6_ledger_purge`: a user with 5 tracked messages leaves;
all 5 deletions are attempted (even with every call failing) and the entry
is gone. -/
theorem c6_witness :
    handle_member_left true [(4, [21, 22, 23, 24, 25])] 4 6 (fun _ => false) =
      ([], [ApiCall.deleteMessage 6 21, ApiCall.deleteMessage 6 22,
            ApiCall.deleteMessage 6 23, ApiCall.deleteMessage 6 24,
            ApiCall.deleteMessage 6 25]) ∧
    (handle_member_left true [(4, [21, 22, 23, 24, 25])] 4 6
      (fun _ => false)).1.lookup 4 = none :=
  ⟨((c6_ledger_purge [(4, [21, 22, 23, 24, 25])] 4 6 [21, 22, 23, 24, 25]
      (fun _ => false) (fun _ => false) rfl).1),
   ((c6_ledger_purge [(4, [21, 22, 23, 24, 25])] 4 6 [21, 22, 23, 24, 25]
      (fun _ => false) (fun _ => false) rfl).2.1)⟩

theorem Ledger.lookup_appendMsg (l : Ledger) (user_id msgId : Nat) :
    (l.appendMsg user_id msgId).lookup user_id =
      some ((l.lookup user_id).getD [] ++ [msgId]) := by
  cases h : l.lookup user_id with
  | none => simp [Ledger.appendMsg, h, AMap.lookup_insert_self]
  | some ms => simp [Ledger.appendMsg, h, AMap.lookup_insert_self]

/-- C10: the ledger records message ids only, keyed by user id alone (see
`Ledger`); a message tracked from chat `chatA` is, on the sender's
departure observed in chat `chatB`, submitted for deletion against `chatB`
— including when `chatA ≠ chatB`. -/
theorem c10_cross_chat_delete (htest : Bool) (store : Store) (ledger : Ledger)
    (user_id chatA chatB msg_id : Nat) (api : ApiCall → Bool)
    (hnogate : ¬(htest = true ∧ (store.lookup user_id).isSome = true)) :
    ApiCall.deleteMessage chatB msg_id ∈
      (handle_member_left true
        (handle_message_from_new_member htest true store ledger user_id
          chatA msg_id).1
        user_id chatB api).2 := by
  have h1 : (handle_message_from_new_member htest true store ledger user_id
      chatA msg_id).1 = ledger.appendMsg user_id msg_id := by
    simp only [handle_message_from_new_member]
    rw [if_neg hnogate]
    rfl
  rw [h1]
  have h2 := Ledger.lookup_appendMsg ledger user_id msg_id
  simp only [handle_member_left, Bool.not_true, Bool.false_eq_true, if_false, h2]
  exact List.mem_map_of_mem _ (by simp)

/-- Witness for `c10_cross_chat_delete`: message 42 tracked in chat 1 is
deleted against chat 2 when the user leaves chat 2. -/
theorem c10_witness :
    ApiCall.deleteMessage 2 42 ∈
      (handle_member_left true
        (handle_message_from_new_member false true [] [] 7 1 42).1
        7 2 (fun _ => true)).2 :=
  c10_cross_chat_delete false [] [] 7 1 2 42 (fun _ => true) (by simp)

/-- C7, counterexample to the claim as stated: with a live session and
remaining time positive, a `TelegramBadRequest` whose message is not
"message is not modified" — still a platform error — is re-raised by the
`else: raise` branch of `update_timer_display`, so it propagates out of the
refresh loop un-logged instead of terminating it with the error logged. -/
theorem c7_counterexample :
    update_timer_display 1
      [([(1, { chat_id := 5, poll_id := "p", message_id := 10,
               correct_option_id := 2, deadline := 300,
               user := { id := 1, first_name := "G", username := none } })],
        0, EditResult.badRequestOther)] = LoopOutcome.raisedBadRequest ∧
    LoopOutcome.raisedBadRequest ≠ LoopOutcome.stopLoggedApiError := by
  decide

/-- C7 (amended): the countdown loop self-terminates when the session is
absent or remaining time has reached zero; a "message is not modified"
`TelegramBadRequest` is benign (sleep and continue); a non-BadRequest
`TelegramAPIError` terminates the loop with the error logged; but a
`TelegramBadRequest` with any other message is re-raised and propagates out
of the loop (terminating the refresher by exception rather than by the
logged stop).  Whenever an iteration does not continue, the loop's overall
outcome is that iteration's outcome. -/
theorem c7_amended (store : Store) (user_id now : Nat) (er : EditResult)
    (rest : List (Store × Nat × EditResult)) :
    (store.lookup user_id = none →
      timerStep store user_id now er = LoopOutcome.stopNoSession) ∧
    (∀ v, store.lookup user_id = some v →
      (v.deadline : Int) - (now : Int) ≤ 0 →
      timerStep store user_id now er = LoopOutcome.stopTimeUp) ∧
    (∀ v, store.lookup user_id = some v →
      0 < (v.deadline : Int) - (now : Int) →
      timerStep store user_id now EditResult.badRequestNotModified =
        LoopOutcome.continueLoop) ∧
    (∀ v, store.lookup user_id = some v →
      0 < (v.deadline : Int) - (now : Int) →
      timerStep store user_id now EditResult.apiError =
        LoopOutcome.stopLoggedApiError) ∧
    (∀ v, store.lookup user_id = some v →
      0 < (v.deadline : Int) - (now : Int) →
      timerStep store user_id now EditResult.badRequestOther =
        LoopOutcome.raisedBadRequest) ∧
    (timerStep store user_id now er ≠ LoopOutcome.continueLoop →
      update_timer_display user_id ((store, now, er) :: rest) =
        timerStep store user_id now er) := by
  refine ⟨?_, ?_, ?_, ?_, ?_, ?_⟩
  · intro h
    simp [timerStep, h]
  · intro v h hd
    simp [timerStep, h, hd]
  · intro v h hd
    simp [timerStep, h, Int.not_le.mpr hd]
  · intro v h hd
    simp [timerStep, h, Int.not_le.mpr hd]
  · intro v h hd
    simp [timerStep, h, Int.not_le.mpr hd]
  · intro hne
    show (match timerStep store user_id now er with
      | LoopOutcome.continueLoop => update_timer_display user_id rest
      | o => o) = timerStep store user_id now er
    cases ht : timerStep store user_id now er with
    | continueLoop => exact absurd ht hne
    | stopNoSession => rfl
    | stopTimeUp => rfl
    | stopLoggedApiError => rfl
    | raisedBadRequest => rfl

/-- Witness for `c7_amended`: with a live session, 300 seconds remaining and
a non-BadRequest API error, the iteration stops the loop with the error
logged. -/
theorem c7_witness :
    timerStep
      [(1, { chat_id := 5, poll_id := "p", message_id := 10,
             correct_option_id := 2, deadline := 300,
             user := { id := 1, first_name := "G", username := none } })]
      1 0 EditResult.apiError = LoopOutcome.stopLoggedApiError :=
  (c7_amended
    [(1, { chat_id := 5, poll_id := "p", message_id := 10,
           correct_option_id := 2, deadline := 300,
           user := { id := 1, first_name := "G", username := none } })]
    1 0 EditResult.apiError []).2.2.2.1
    { chat_id := 5, poll_id := "p", message_id := 10,
      correct_option_id := 2, deadline := 300,
      user := { id := 1, first_name := "G", username := none } }
    rfl (by decide)

/-- C8: the timeout task scheduled at session creation cannot run its body
before `startTime + window` seconds (the `asyncio.sleep(window)` bound), so
a session is never resolved by the timeout path before the configured
window has elapsed; and when it does fire, it performs the rejection with
reason "Превышено время верификации" exactly when the session still
exists, doing nothing otherwise. -/
theorem c8_timeout (startTime window user_id now : Nat) (store : Store)
    (api : ApiCall → Bool)
    (hfire : (scheduleVerificationTimeout startTime window user_id).canFire now) :
    startTime + window ≤ now ∧
    (∀ t, t < startTime + window →
      ¬(scheduleVerificationTimeout startTime window user_id).canFire t) ∧
    (∀ v, store.lookup user_id = some v →
      verification_timeout_fire store user_id api =
        (store.eraseKey user_id,
         runCalls api (reject_calls v user_id "Превышено время верификации"))) ∧
    (store.lookup user_id = none →
      verification_timeout_fire store user_id api = (store, [])) := by
  refine ⟨hfire, ?_, ?_, ?_⟩
  · intro t ht hc
    have h2 : startTime + window ≤ t := hc
    omega
  · intro v h
    simp [verification_timeout_fire, h,
      reject_user_present store user_id _ api v h]
  · intro h
    simp [verification_timeout_fire, h]

/-- Witness for `c8_timeout`: the default 300-second window, fired exactly
at the deadline, rejects the still-pending user 1. -/
theorem c8_witness :
    (0 + 300 ≤ 300) ∧
    verification_timeout_fire
      [(1, { chat_id := 5, poll_id := "p", message_id := 10,
             correct_option_id := 2, deadline := 300,
             user := { id := 1, first_name := "H", username := none } })]
      1 (fun _ => true) =
      (AMap.eraseKey
        [(1, { chat_id := 5, poll_id := "p", message_id := 10,
               correct_option_id := 2, deadline := 300,
               user := { id := 1, first_name := "H", username := none } })] 1,
       runCalls (fun _ => true)
        (reject_calls
          { chat_id := 5, poll_id := "p", message_id := 10,
            correct_option_id := 2, deadline := 300,
            user := { id := 1, first_name := "H", username := none } }
          1 "Превышено время верификации")) :=
  ⟨(c8_timeout 0 300 1 300
      [(1, { chat_id := 5, poll_id := "p", message_id := 10,
             correct_option_id := 2, deadline := 300,
             user := { id := 1, first_name := "H", username := none } })]
      (fun _ => true) (by decide)).1,
   (c8_timeout 0 300 1 300
      [(1, { chat_id := 5, poll_id := "p", message_id := 10,
             correct_option_id := 2, deadline := 300,
             user := { id := 1, first_name := "H", username := none } })]
      (fun _ => true) (by decide)).2.2.1
     { chat_id := 5, poll_id := "p", message_id := 10,
       correct_option_id := 2, deadline := 300,
       user := { id := 1, first_name := "H", username := none } }
     rfl⟩
